import Mathlib

/-!
Shallow embedding of the client-side generation orchestrator of
`src/components/LoginScreen.tsx` and of the reverse-geocoding route
`src/app/api/geocode/route.ts`.

Conventions of the embedding:
* React state (`useState` hooks of the `Home` component) is gathered into one
  record `OrchState`; each `setX(v)` becomes a functional record update, read in
  program order (the sequential semantics the single-threaded event loop gives).
* Browser interval timers are modelled explicitly: `activeTimers` is the
  browser's table of live interval timers, `setInterval` allocates a fresh id,
  `clearInterval` removes it.
* Every `fetch`/JSON interaction with a collaborator is an oracle argument (an
  inductive outcome type listing exactly the cases the source distinguishes:
  network rejection, non-JSON content type, JSON parse failure, parsed body).
* JavaScript numbers for coordinates are abstracted to `Int` (the code only
  compares them and renders them into strings); `Number.prototype.toFixed(4)`
  is abstracted to decimal rendering `toFixed4`.
* JS `a || b` on strings (empty string falsy) is `jsOr`; truthiness of an
  optional string is `jsTruthy`; template interpolation of a possibly-undefined
  string is `jsStr` (undefined prints as "undefined").
* A `throw` caught by an enclosing `catch` is modelled by calling the catch
  continuation with the state mutated so far and the thrown message.
-/

/-- JS string truthiness of a possibly-undefined string: undefined and "" are falsy. -/
def jsTruthy : Option String → Bool
  | none => false
  | some s => s != ""

/-- JS `a || d` for an optional string `a` and a string default `d`. -/
def jsOr (a : Option String) (d : String) : String :=
  match a with
  | none => d
  | some s => if s = "" then d else s

/-- JS `a || b` where both operands are optional strings (`null`/`undefined` model). -/
def jsOrOpt (a b : Option String) : Option String :=
  if jsTruthy a then a else b

/-- JS template interpolation of a possibly-undefined string. -/
def jsStr : Option String → String
  | none => "undefined"
  | some s => s

/-- The Fetch API's `Response.ok`: HTTP status in the 2xx range. -/
def respOk (status : Nat) : Bool :=
  decide (200 ≤ status) && decide (status ≤ 299)

/-- Coordinates are abstracted to integers; `toFixed(4)` is abstracted to decimal rendering. -/
def toFixed4 (n : Int) : String := toString n

/-- The `LocationData` interface of LoginScreen.tsx. -/
structure LocationData where
  latitude : Int
  longitude : Int
  altitude : Option Int
  locationName : Option String
  isManuallySet : Bool
deriving DecidableEq, Repr

/-- WeatherData.temp is `number | string` in the source. -/
inductive TempVal where
  | num (n : Int)
  | str (s : String)
deriving DecidableEq, Repr

/-- JS template interpolation of a possibly-undefined `number | string` value. -/
def tempValStr : Option TempVal → String
  | none => "undefined"
  | some (.num n) => toString n
  | some (.str s) => s

/-- The `WeatherData` interface of LoginScreen.tsx (`temp` may end up undefined
through the legacy-API branch, hence `Option`). -/
structure WeatherData where
  location : Option String
  city : Option String
  description : String
  temp : Option TempVal
  country : Option String
  symbol : Option String
  windSpeed : Option Int
  cloudCover : Option Int
  precipitation : Option Int
  creativeDescription : Option String
deriving DecidableEq, Repr

/-- The `SubjectType` union of LoginScreen.tsx. -/
inductive SubjectType where
  | portrait
  | humans
  | nature
  | custom
deriving DecidableEq, Repr

/-- JS template interpolation of a SubjectType value. -/
def subjectTypeStr : SubjectType → String
  | .portrait => "portrait"
  | .humans => "humans"
  | .nature => "nature"
  | .custom => "custom"

/-- The aggregate React state of the `Home` component, plus the browser's
interval-timer table (`activeTimers`, `nextTimerId`). -/
structure OrchState where
  status : String
  error : Option String
  isLoading : Bool
  location : Option LocationData
  weather : Option WeatherData
  prompt : Option String
  predictionId : Option String
  imageUrl : Option String
  showFetchButton : Bool
  useMetNorwayApi : Bool
  selectedSubject : SubjectType
  pollingIntervalId : Option Nat
  activeTimers : List Nat
  nextTimerId : Nat
deriving DecidableEq, Repr

/-- The initial state of the component's hooks. -/
def initialState : OrchState :=
  { status := ""
    error := none
    isLoading := false
    location := none
    weather := none
    prompt := some ""
    predictionId := none
    imageUrl := none
    showFetchButton := false
    useMetNorwayApi := true
    selectedSubject := .custom
    pollingIntervalId := none
    activeTimers := []
    nextTimerId := 1 }

/-- `updateStatus(message, isError)` of LoginScreen.tsx. -/
def updateStatus (s : OrchState) (message : String) (isErr : Bool) : OrchState :=
  { s with status := message, error := if isErr then some message else none }

/-- `clearPolling()` of LoginScreen.tsx: clear the interval and forget the handle. -/
def clearPolling (s : OrchState) : OrchState :=
  match s.pollingIntervalId with
  | some id => { s with activeTimers := s.activeTimers.erase id, pollingIntervalId := none }
  | none => s

/-- `handleMapLocationChange(lat, lng)` of LoginScreen.tsx. -/
def handleMapLocationChange (s : OrchState) (lat lng : Int) : OrchState :=
  if s.isLoading then s
  else
    let s :=
      match s.location with
      | none =>
        let freshLoc : LocationData :=
          { latitude := lat
            longitude := lng
            altitude := none
            locationName := none
            isManuallySet := true }
        { s with location := some freshLoc }
      | some prevLocation =>
        if prevLocation.latitude = lat ∧ prevLocation.longitude = lng then s
        else
          let movedLoc : LocationData :=
            { prevLocation with
              latitude := lat
              longitude := lng
              isManuallySet := true
              locationName := none }
          { s with location := some movedLoc }
    updateStatus s ("Location set to: " ++ toFixed4 lat ++ ", " ++ toFixed4 lng) false

/-- Outcome of the browser geolocation request: missing API, error callback, or
a position (whose altitude may be `null`, modelled as `none`). -/
inductive GeoOutcome where
  | unsupported
  | geoError (message : String)
  | position (latitude longitude : Int) (altitude : Option Int)
deriving DecidableEq, Repr

/-- The location object built in the `getCurrentPosition` success callback:
`altitude: position.coords.altitude || undefined` (0 and null are falsy). -/
def deviceLoc (lat lon : Int) (alt : Option Int) : LocationData :=
  { latitude := lat
    longitude := lon
    altitude := match alt with
      | none => none
      | some a => if a = 0 then none else some a
    locationName := none
    isManuallySet := false }

/-- The device-geolocation path of `handleGetLocation` (the returned `Except` is
the promise: `.error` is a rejection that the caller's `catch` will receive). -/
def handleGetLocationDevice (s : OrchState) (geo : GeoOutcome) :
    OrchState × Except String LocationData :=
  match geo with
  | .unsupported => (s, .error "Geolocation is not supported by your browser.")
  | .geoError message =>
    (updateStatus s "Requesting location permission..." false,
     .error ("Geolocation error: " ++ message))
  | .position lat lon alt =>
    let s := updateStatus s "Requesting location permission..." false
    let loc := deviceLoc lat lon alt
    let s := updateStatus s
      ("Location acquired: " ++ toFixed4 loc.latitude ++ ", " ++ toFixed4 loc.longitude) false
    ({ s with location := some loc }, .ok loc)

/-- `handleGetLocation()` of LoginScreen.tsx: a manually set location resolves
immediately, otherwise device geolocation is requested. -/
def handleGetLocation (s : OrchState) (geo : GeoOutcome) :
    OrchState × Except String LocationData :=
  match s.location with
  | some l => if l.isManuallySet then (s, .ok l) else handleGetLocationDevice s geo
  | none => handleGetLocationDevice s geo

/-- The `location` field of the geocode route's response body. -/
structure GeoLocationField where
  best_name : String
deriving DecidableEq, Repr

/-- Parsed body of a `/api/geocode` response as LoginScreen.tsx reads it. -/
structure GeocodeBody where
  error : Option String
  location : Option GeoLocationField
deriving DecidableEq, Repr

/-- Outcome of the `/api/geocode` fetch in `handleGetLocationName`: network
rejection, or a response whose `json()` either throws (`none`) or parses. -/
inductive GeocodeOutcome where
  | netError
  | response (ok : Bool) (body : Option GeocodeBody)
deriving DecidableEq, Repr

/-- `handleGetLocationName(loc)` of LoginScreen.tsx: every failure is caught and
the un-named location is returned unchanged. -/
def handleGetLocationName (s : OrchState) (loc : LocationData) (o : GeocodeOutcome) :
    OrchState × LocationData :=
  let s := updateStatus s "Determining location name..." false
  match o with
  | .netError => (s, loc)
  | .response ok body =>
    match body with
    | none => (s, loc)
    | some data =>
      if !ok then (s, loc)
      else
        match data.location with
        | none => (s, loc)
        | some f =>
          let updatedLoc := { loc with locationName := some f.best_name }
          let s := updateStatus s ("Location identified as: " ++ f.best_name) false
          ({ s with location := some updatedLoc }, updatedLoc)

/-- The `weather` sub-object of a MET Norway route response body. -/
structure MetnoWeatherField where
  temperature : Int
  symbol : String
  windSpeed : Option Int
  cloudCover : Option Int
  precipitation : Option Int
  creativeDescription : Option String
deriving DecidableEq, Repr

/-- Parsed body of a weather-route response, covering the fields both branches
of `handleGetWeather` read (JS objects are duck-typed, so one record serves). -/
structure WeatherBody where
  error : Option String
  location : Option String
  country : Option String
  weather : Option MetnoWeatherField
  city : Option String
  description : Option String
  temp : Option TempVal
deriving DecidableEq, Repr

/-- Outcome of the weather fetch: network rejection, or a response whose
`json()` either throws (`none`) or parses. -/
inductive WeatherOutcome where
  | netError
  | response (ok : Bool) (body : Option WeatherBody)
deriving DecidableEq, Repr

/-- The default weather object built in `handleGetWeather`'s catch block. -/
def defaultWeather (loc : LocationData) : WeatherData :=
  { location := none
    city := some (jsOr loc.locationName "Unknown location")
    description := "unknown conditions"
    temp := some (.str "unknown")
    country := some "Unknown country"
    symbol := none
    windSpeed := none
    cloudCover := none
    precipitation := none
    creativeDescription := none }

/-- `handleGetWeather(loc)` of LoginScreen.tsx: any failure is caught and the
fixed default weather is stored and returned. -/
def handleGetWeather (s : OrchState) (loc : LocationData) (o : WeatherOutcome) :
    OrchState × WeatherData :=
  let s := updateStatus s "Fetching weather data..." false
  let fail : OrchState → OrchState × WeatherData := fun s =>
    let s := updateStatus s "Could not fetch weather data, using default values." false
    let w := defaultWeather loc
    ({ s with weather := some w }, w)
  match o with
  | .netError => fail s
  | .response ok body =>
    match body with
    | none => fail s
    | some data =>
      if !ok then fail s
      else
        if s.useMetNorwayApi then
          match data.weather with
          | none => fail s
          | some w =>
            let cityStr := jsOr data.location (jsOr loc.locationName "Unnamed location")
            let weatherInfo : WeatherData :=
              { location := some (jsOr data.location (jsOr loc.locationName
                  (toFixed4 loc.latitude ++ ", " ++ toFixed4 loc.longitude)))
                city := some cityStr
                country := some (jsOr data.country "")
                temp := some (.num w.temperature)
                description := w.symbol.replace "_" " "
                symbol := some w.symbol
                windSpeed := w.windSpeed
                cloudCover := w.cloudCover
                precipitation := w.precipitation
                creativeDescription := w.creativeDescription }
            let s := updateStatus s
              ("Weather for " ++ cityStr ++ ", " ++ jsOr data.country "" ++ ": " ++
               toString w.temperature ++ "°C, " ++ w.symbol.replace "_" " " ++
               " with creative insight from AI") false
            ({ s with weather := some weatherInfo }, weatherInfo)
        else
          let cityStr := jsOr data.city (jsOr loc.locationName "Unknown location")
          let weatherInfo : WeatherData :=
            { location := none
              city := some cityStr
              country := some (jsOr data.country "")
              description := jsOr data.description "unknown conditions"
              temp := data.temp
              symbol := none
              windSpeed := none
              cloudCover := none
              precipitation := none
              creativeDescription := none }
          let s := updateStatus s
            ("Weather for " ++ cityStr ++ ", " ++ jsOr data.country "" ++ ": " ++
             jsOr data.description "unknown conditions" ++ ", " ++
             tempValStr data.temp ++ "°C") false
          ({ s with weather := some weatherInfo }, weatherInfo)

/-- `getSubjectDescription(type)` of LoginScreen.tsx. -/
def getSubjectDescription : SubjectType → String
  | .portrait => "A striking portrait of a local person with authentic facial expressions and natural lighting. The face is captured with striking detail, showing the character and personality in their eyes."
  | .humans => "A vibrant scene of people interacting and engaging with each other in a social setting. Small groups facing the camera or angled to show their faces and expressions. People are shown in conversations, laughing, and connecting in authentic ways. Focus on capturing facial expressions, emotions, and the community atmosphere, avoiding shots from behind or of people walking away."
  | .nature => "The local landscape dominates the scene, showcasing the environmental features, scenery, and natural elements characteristic of the region. No human presence, focusing entirely on the raw beauty of the location."
  | .custom => "People are actively engaging with their mobile phones - taking selfies, texting, or showing each other content on their screens."

/-- The deterministic fallback prompt computed at the start of
`createAndSetPrompt` (the template literal of LoginScreen.tsx, with the same
JS `||` defaulting). -/
def fallbackPrompt (loc : LocationData) (weatherData : WeatherData)
    (selectedSubject : SubjectType) : String :=
  "Lifestyle magazine cover photo of an outdoor scene in " ++
  jsOr weatherData.city "a beautiful location" ++ ", " ++
  jsOr weatherData.country "unknown country" ++ ". " ++
  jsOr weatherData.creativeDescription "" ++ " \n    " ++
  getSubjectDescription selectedSubject ++
  "\n    Street signs or direction signs that say \"Dentsu\" and \"" ++
  (jsOr weatherData.city "LOCATION").toUpper ++
  "\" in bold, easy-to-read font.\n    \n    GPS coordinates: " ++
  toFixed4 loc.latitude ++ ", " ++ toFixed4 loc.longitude ++ ". \n    " ++
  "Style: Shot on Fujifilm GFX 50S medium format camera with GF 120mm F4 R LM OIS WR Macro lens.\n    " ++
  "Fujifilm's signature color science with natural skin tone reproduction. Medium format sensor rendering with exceptional detail and subtle tonal gradations.\n    " ++
  "Technical settings: f/14 for deep focus across frame, 1/500 sec shutter speed for crisp detail, ISO 640 maintaining clean image quality with medium format noise characteristics.\n    " ++
  "Fujifilm's characteristic color rendition emphasizing warm tones while maintaining highlight detail. 4:3 medium format aspect ratio.\n    " ++
  "Gentle falloff in corners typical of GF lens lineup. Sharp detail retention with medium format depth.\n    " ++
  "Subtle micro-contrast typical of GFX system. The text on signs must be perfectly legible and clear."

/-- The `meta` sub-object of an enhance-prompt response body. -/
structure EnhanceMeta where
  timeOfDay : Option String
  lightingConditions : Option String
deriving DecidableEq, Repr

/-- Parsed body of an `/api/enhance-prompt` response as the client reads it. -/
structure EnhanceBody where
  prompt : Option String
  meta : Option EnhanceMeta
deriving DecidableEq, Repr

/-- Outcome of the enhance-prompt fetch: network rejection, or a response
(`response.ok` is checked before the body is parsed; `none` body = parse threw). -/
inductive EnhanceOutcome where
  | netError
  | response (ok : Bool) (body : Option EnhanceBody)
deriving DecidableEq, Repr

/-- `createAndSetPrompt(loc, weatherData)` of LoginScreen.tsx: computes the
deterministic fallback first; any failure of the enhancement call is caught and
the fallback is stored and returned verbatim. The returned `Option String` is
the function's JS return value (`data.prompt` may be undefined). -/
def createAndSetPrompt (s : OrchState) (loc : LocationData) (weatherData : WeatherData)
    (o : EnhanceOutcome) : OrchState × Option String :=
  let fb := fallbackPrompt loc weatherData s.selectedSubject
  let s := updateStatus s "Creating magic prompt..." false
  let fail : OrchState → OrchState × Option String := fun s =>
    let s := updateStatus s "Using standard prompt (enhancement failed)" false
    ({ s with prompt := some fb }, some fb)
  match o with
  | .netError => fail s
  | .response ok body =>
    if !ok then fail s
    else
      match body with
      | none => fail s
      | some data =>
        let enhancedPrompt := data.prompt
        let s :=
          match data.meta with
          | some m =>
            if jsTruthy m.timeOfDay then
              updateStatus s
                ("Magic prompt created for " ++ (jsStr m.timeOfDay).toLower ++
                 " lighting (" ++ jsStr m.lightingConditions ++ ")") false
            else updateStatus s "Magic prompt created!" false
          | none => updateStatus s "Magic prompt created!" false
        ({ s with prompt := enhancedPrompt }, enhancedPrompt)

/-- `handleToggleWeatherApi()` of LoginScreen.tsx (the status message reads the
pre-update flag, as the JS closure does). -/
def handleToggleWeatherApi (s : OrchState) : OrchState :=
  let s2 := { s with useMetNorwayApi := !s.useMetNorwayApi }
  updateStatus s2
    ("Using " ++ (if !s.useMetNorwayApi then "MET Norway" else "Original") ++
     " weather API") false

/-- Parsed body of a `/api/replicate` submission response. -/
structure SubmitBody where
  error : Option String
  id : Option String
  status : Option String
deriving DecidableEq, Repr

/-- Outcome of the job-submission fetch, split exactly as the source splits it:
network rejection, non-JSON content type (body text kept), JSON content type
whose parse throws, or a parsed JSON body with its HTTP status. -/
inductive SubmitOutcome where
  | netError (msg : String)
  | nonJson (httpStatus : Nat) (text : String)
  | jsonParseError (httpStatus : Nat) (msg : String)
  | json (httpStatus : Nat) (body : SubmitBody)
deriving DecidableEq, Repr

/-- `handleStartGeneration(currentPrompt)` of LoginScreen.tsx. -/
def handleStartGeneration (s : OrchState) (o : SubmitOutcome) : OrchState :=
  let s := updateStatus s "Sending request to start image generation..." false
  let s := { s with predictionId := none, imageUrl := none, showFetchButton := false }
  let s := clearPolling s
  let fail : OrchState → String → OrchState := fun s msg =>
    let s := updateStatus s ("Image generation error: " ++ msg) true
    { s with isLoading := false }
  match o with
  | .netError msg => fail s msg
  | .nonJson _ _ =>
    fail s "Server returned non-JSON response. Check console for details."
  | .jsonParseError _ msg => fail s msg
  | .json httpStatus prediction =>
    if !(respOk httpStatus) || jsTruthy prediction.error then
      fail s (jsOr prediction.error
        ("Failed to start image generation (Status: " ++ toString httpStatus ++ ")"))
    else
      if jsTruthy prediction.id then
        let s := updateStatus s
          ("Image generation started. Status: " ++ jsStr prediction.status) false
        let s := { s with predictionId := prediction.id, showFetchButton := true }
        let newId := s.nextTimerId
        { s with activeTimers := s.activeTimers ++ [newId]
                 nextTimerId := newId + 1
                 pollingIntervalId := some newId }
      else fail s "Replicate API did not return a prediction ID."

/-- Parsed body of a `/api/replicate/status` poll response (the
`ReplicatePrediction` shape as the client reads it). -/
structure Prediction where
  id : Option String
  status : String
  output : Option (List String)
  error : Option String
deriving DecidableEq, Repr

/-- Outcome of a status poll, split exactly as the source splits it. The
`statusText` is the HTTP reason phrase the error message falls back to. -/
inductive PollOutcome where
  | netError (msg : String)
  | nonJson (httpStatus : Nat) (statusText : String) (text : String)
  | jsonParseError (httpStatus : Nat) (statusText : String) (msg : String)
  | json (httpStatus : Nat) (statusText : String) (body : Prediction)
deriving DecidableEq, Repr

/-- The catch block of `handleFetchResult`: show the error, and turn the manual
loading indicator off only when this was not a timer-driven poll. -/
def pollCatch (s : OrchState) (isPolling : Bool) (msg : String) : OrchState :=
  let s := updateStatus s msg true
  if !isPolling then { s with isLoading := false } else s

/-- `handleFetchResult(idToCheck, isPolling)` of LoginScreen.tsx. Statements of
the source that stand after a `throw` in the same case (the `failed`/`canceled`
branch) are unreachable and therefore absent here. -/
def handleFetchResult (s : OrchState) (idToCheck : Option String) (isPolling : Bool)
    (o : PollOutcome) : OrchState :=
  if !(jsTruthy idToCheck) then
    updateStatus s "No active generation task ID found." true
  else
    let s :=
      if !isPolling then
        { updateStatus s "Checking status..." false with isLoading := true }
      else s
    match o with
    | .netError msg => pollCatch s isPolling msg
    | .nonJson _ _ _ =>
      pollCatch s isPolling "Server returned non-JSON response. Check console for details."
    | .jsonParseError _ _ msg => pollCatch s isPolling msg
    | .json httpStatus statusText prediction =>
      if !(respOk httpStatus) || jsTruthy prediction.error then
        let errorMsg := "Failed to fetch status: " ++ jsOr prediction.error statusText
        if 400 ≤ httpStatus ∧ httpStatus < 500 then
          let errorMsg := errorMsg ++ " Stopping checks."
          let s := clearPolling s
          let s := { s with showFetchButton := false }
          pollCatch s isPolling errorMsg
        else
          pollCatch s isPolling errorMsg
      else
        let s := updateStatus s ("Status: " ++ prediction.status) false
        if prediction.status = "succeeded" then
          let s := clearPolling s
          match prediction.output with
          | some (url :: _) =>
            let s := { s with imageUrl := some url }
            let s := updateStatus s "Image generation successful!" false
            let s := { s with predictionId := none, showFetchButton := false }
            { s with isLoading := false }
          | _ =>
            pollCatch s isPolling "Prediction succeeded but no output URL was found."
        else if prediction.status = "failed" ∨ prediction.status = "canceled" then
          let s := clearPolling s
          pollCatch s isPolling
            ("Image generation " ++ prediction.status ++ ". Reason: " ++
             jsOr prediction.error "Unknown")
        else if prediction.status = "processing" ∨ prediction.status = "starting" then
          let s := if !isPolling then { s with isLoading := false } else s
          { s with showFetchButton := true }
        else
          let s := if !isPolling then { s with isLoading := false } else s
          { s with showFetchButton := true }

/-- The collaborator outcomes one `handleGenerateClick` run consumes, in
pipeline order. -/
structure RunEnv where
  geo : GeoOutcome
  geocode : GeocodeOutcome
  weather : WeatherOutcome
  enhance : EnhanceOutcome
  submit : SubmitOutcome
deriving DecidableEq, Repr

/-- `handleGenerateClick()` of LoginScreen.tsx. Of the awaited stages only
`handleGetLocation` can reject (the others catch internally), so the catch
block fires exactly on a geolocation failure. -/
def handleGenerateClick (s : OrchState) (env : RunEnv) : OrchState :=
  let s := { s with isLoading := true, error := none, prompt := some "",
                    imageUrl := none, predictionId := none, showFetchButton := false }
  let s := clearPolling s
  match handleGetLocation s env.geo with
  | (s, .error errorMessage) =>
    let s := updateStatus s errorMessage true
    let s := { s with isLoading := false }
    let s := clearPolling s
    { s with showFetchButton := false }
  | (s, .ok loc) =>
    let (s, locWithName) := handleGetLocationName s loc env.geocode
    let (s, weatherData) := handleGetWeather s locWithName env.weather
    let (s, _generatedPrompt) := createAndSetPrompt s locWithName weatherData env.enhance
    handleStartGeneration s env.submit

/-- `handleReRoll()` of LoginScreen.tsx: reuse the stored location and weather
when both exist, otherwise fall back to a fresh `handleGenerateClick` run. -/
def handleReRoll (s : OrchState) (enhance : EnhanceOutcome) (submit : SubmitOutcome)
    (fallbackEnv : RunEnv) : OrchState :=
  let s := { s with isLoading := true, error := none, imageUrl := none,
                    predictionId := none, showFetchButton := false }
  let s := clearPolling s
  match s.location, s.weather with
  | some loc, some w =>
    let (s, _generatedPrompt) := createAndSetPrompt s loc w enhance
    handleStartGeneration s submit
  | _, _ => handleGenerateClick s fallbackEnv

/-- `handleSubjectSelect(subjectType)` of LoginScreen.tsx. -/
def handleSubjectSelect (s : OrchState) (subjectType : SubjectType)
    (enhance : EnhanceOutcome) : OrchState :=
  let s := { s with selectedSubject := subjectType }
  let s := updateStatus s ("Selected subject type: " ++ subjectTypeStr subjectType) false
  match s.location, s.weather with
  | some loc, some w => (createAndSetPrompt s loc w enhance).1
  | _, _ => s

/-- `handleSetNewLocation()` of LoginScreen.tsx. -/
def handleSetNewLocation (s : OrchState) : OrchState :=
  { s with imageUrl := none }

/-- One user-or-timer event of the orchestrator, with the collaborator outcomes
it consumes. A `pollTick` carries the job id its creating closure captured. -/
inductive UserAction where
  | generateClick (env : RunEnv)
  | reRoll (enhance : EnhanceOutcome) (submit : SubmitOutcome) (fallbackEnv : RunEnv)
  | pollTick (jobId : String) (o : PollOutcome)
  | checkStatus (o : PollOutcome)
  | subjectSelect (t : SubjectType) (enhance : EnhanceOutcome)
  | mapChange (lat lng : Int)
  | toggleApi
  | setNewLocation
deriving DecidableEq, Repr

/-- The event-loop step: a timer tick fires only while its interval is live,
and the Check Status button exists only while it is rendered and enabled. -/
def step (s : OrchState) (a : UserAction) : OrchState :=
  match a with
  | .generateClick env => handleGenerateClick s env
  | .reRoll enhance submit env => handleReRoll s enhance submit env
  | .pollTick jobId o =>
    if s.pollingIntervalId.isSome then handleFetchResult s (some jobId) true o else s
  | .checkStatus o =>
    if s.showFetchButton && s.imageUrl.isNone && !s.isLoading then
      handleFetchResult s s.predictionId false o
    else s
  | .subjectSelect t enhance => handleSubjectSelect s t enhance
  | .mapChange lat lng => handleMapLocationChange s lat lng
  | .toggleApi => handleToggleWeatherApi s
  | .setNewLocation => handleSetNewLocation s

/-- The `address` object of a Nominatim reverse-geocoding response. -/
structure NominatimAddress where
  city : Option String
  town : Option String
  village : Option String
  hamlet : Option String
  county : Option String
  state : Option String
  region : Option String
  country : Option String
  country_code : Option String
  postcode : Option String
deriving DecidableEq, Repr

/-- Parsed body of a Nominatim response as `getLocationFromCoordinates` reads it. -/
structure NominatimBody where
  address : Option NominatimAddress
  display_name : Option String
deriving DecidableEq, Repr

/-- Outcome of the Nominatim fetch in the geocode route: network rejection, or
a response whose `json()` either throws (with a message) or parses. -/
inductive NominatimOutcome where
  | netError (msg : String)
  | response (httpStatus : Nat) (body : Except String NominatimBody)
deriving Repr

/-- The `LocationInfo` interface of `src/app/api/geocode/route.ts`. -/
structure LocationInfo where
  city : Option String
  county : Option String
  state : Option String
  country : Option String
  country_code : Option String
  postcode : Option String
  display_name : Option String
  best_name : String
deriving DecidableEq, Repr

/-- The default object returned by `getLocationFromCoordinates`'s catch block. -/
def defaultLocationInfo : LocationInfo :=
  { city := none
    county := none
    state := none
    country := none
    country_code := none
    postcode := none
    display_name := none
    best_name := "Unknown location" }

/-- JS `data.address?.f`: optional chaining through a possibly-missing address. -/
def addrField (addr : Option NominatimAddress) (f : NominatimAddress → Option String) :
    Option String :=
  match addr with
  | none => none
  | some a => f a

/-- The `locationInfo` object the try block of `getLocationFromCoordinates`
builds from a parsed Nominatim body, with the source's `||` fallback chains. -/
def locationInfoOf (data : NominatimBody) : LocationInfo :=
  let addr := data.address
  { city := jsOrOpt (addrField addr NominatimAddress.city)
      (jsOrOpt (addrField addr NominatimAddress.town)
        (jsOrOpt (addrField addr NominatimAddress.village)
          (addrField addr NominatimAddress.hamlet)))
    county := addrField addr NominatimAddress.county
    state := jsOrOpt (addrField addr NominatimAddress.state)
      (addrField addr NominatimAddress.region)
    country := addrField addr NominatimAddress.country
    country_code := addrField addr NominatimAddress.country_code
    postcode := addrField addr NominatimAddress.postcode
    display_name := data.display_name
    best_name := jsOr (addrField addr NominatimAddress.city)
      (jsOr (addrField addr NominatimAddress.town)
        (jsOr (addrField addr NominatimAddress.village)
          (jsOr (addrField addr NominatimAddress.hamlet)
            (jsOr (addrField addr NominatimAddress.county)
              (jsOr (addrField addr NominatimAddress.state)
                "Unknown location"))))) }

/-- The try block of `getLocationFromCoordinates` (`lat`/`lon` only feed the
request URL, which the oracle stands for): `.error` is an exception the
enclosing catch will absorb. -/
def getLocationFromCoordinatesTry (o : NominatimOutcome) : Except String LocationInfo :=
  match o with
  | .netError msg => .error msg
  | .response httpStatus body =>
    if !(respOk httpStatus) then
      .error ("Geocoding API error (" ++ toString httpStatus ++ ")")
    else
      match body with
      | .error msg => .error msg
      | .ok data => .ok (locationInfoOf data)

/-- `getLocationFromCoordinates(lat, lon)` of the geocode route, with its
catch-all: the promise it returns, so `.error` would mean a rejection that the
route's `GET` would have to catch. -/
def getLocationFromCoordinates (o : NominatimOutcome) : Except String LocationInfo :=
  match getLocationFromCoordinatesTry o with
  | .ok info => .ok info
  | .error _ => .ok defaultLocationInfo

/-- Responses the geocode route's `GET` can produce: the 400 for missing
parameters, the 200 success payload, or the 500 catch branch. -/
inductive GeoGETResult where
  | badRequest
  | success (location : LocationInfo)
  | serverError (msg : String)
deriving DecidableEq, Repr

/-- `GET(request)` of `src/app/api/geocode/route.ts`. -/
def geocodeGET (lat lon : Option String) (o : NominatimOutcome) : GeoGETResult :=
  if !(jsTruthy lat) || !(jsTruthy lon) then .badRequest
  else
    match getLocationFromCoordinates o with
    | .ok locationInfo => .success locationInfo
    | .error msg => .serverError ("Failed to geocode: " ++ msg)

/-! Helper lemmas shared by the claim theorems. -/

/-- The browser holds exactly the timers the component's handle accounts for. -/
def timerInv (s : OrchState) : Prop :=
  s.activeTimers = s.pollingIntervalId.toList

/-- The two timer-related fields of the state, for frame lemmas. -/
def timerFields (s : OrchState) : List Nat × Option Nat :=
  (s.activeTimers, s.pollingIntervalId)

/-- A run environment whose submission succeeds with job id "p1". -/
def envOkSubmit : RunEnv :=
  { geo := .position 59 10 none
    geocode := .netError
    weather := .netError
    enhance := .netError
    submit := .json 201 { error := none, id := some "p1", status := some "starting" } }

/-- A state in mid-poll: one live timer (id 1), a pending job "p1", loading. -/
def pollingState : OrchState :=
  { status := "Status: processing"
    error := none
    isLoading := true
    location := none
    weather := none
    prompt := some ""
    predictionId := some "p1"
    imageUrl := none
    showFetchButton := true
    useMetNorwayApi := true
    selectedSubject := .custom
    pollingIntervalId := some 1
    activeTimers := [1]
    nextTimerId := 2 }

/-- A mid-poll body whose job is still processing. -/
def processingPrediction : Prediction :=
  { id := some "p1", status := "processing", output := none, error := none }

/-- A terminal `failed` poll body with no upstream reason. -/
def failedPrediction : Prediction :=
  { id := some "p1", status := "failed", output := none, error := none }

/-- A succeeded poll body carrying one output URL. -/
def succeededPrediction : Prediction :=
  { id := some "p1", status := "succeeded",
    output := some ["https://x/img.png"], error := none }

/-- A succeeded poll body with an empty output list. -/
def emptyOutputPrediction : Prediction :=
  { id := some "p1", status := "succeeded", output := some [], error := none }

/-- The failure condition of `handleGetWeather`: network rejection, JSON parse
throw, non-2xx response, or (on the MET Norway branch) a body without the
`weather` object, whose field access throws. -/
def weatherFails (useMetno : Bool) : WeatherOutcome → Bool
  | .netError => true
  | .response ok body =>
    match body with
    | none => true
    | some data => !ok || (useMetno && data.weather.isNone)

/-- The state `handleGetWeather` leaves behind on any caught failure. -/
def weatherFailState (t : OrchState) (loc : LocationData) : OrchState :=
  { updateStatus (updateStatus t "Fetching weather data..." false) "Could not fetch weather data, using default values." false with weather := some (defaultWeather loc) }

/-- A plain device location used by concrete witnesses. -/
def witnessLoc : LocationData :=
  { latitude := 59, longitude := 10, altitude := none,
    locationName := none, isManuallySet := false }

/-- The failure condition of the enrichment call in `createAndSetPrompt`:
network rejection, non-ok response, or a body whose parse throws. -/
def enhanceFails : EnhanceOutcome → Bool
  | .netError => true
  | .response ok body => !ok || body.isNone

/-- No manually set location is stored (the condition under which
`handleGetLocation` takes the device-geolocation path). -/
def locNotManual (s : OrchState) : Prop :=
  ∀ l, s.location = some l → l.isManuallySet = false

/-- Geolocation outcomes the promise executor rejects on. -/
def geoFails : GeoOutcome → Bool
  | .unsupported => true
  | .geoError _ => true
  | .position _ _ _ => false

/-- The rejection message `handleGetLocation` produces for each failure. -/
def geoFailMsg : GeoOutcome → String
  | .unsupported => "Geolocation is not supported by your browser."
  | .geoError m => "Geolocation error: " ++ m
  | .position _ _ _ => ""

/-- A manually placed map location with a resolved name and an altitude. -/
def manualLoc : LocationData :=
  { latitude := 1, longitude := 2, altitude := some 100,
    locationName := some "Oslo", isManuallySet := true }

/-- A state holding the manually placed location. -/
def manualState : OrchState :=
  { initialState with location := some manualLoc }

/-- A run environment whose geolocation is unsupported. -/
def envGeoFail : RunEnv :=
  { geo := .unsupported
    geocode := .netError
    weather := .netError
    enhance := .netError
    submit := .netError "unreached" }

/-- Whether a geocode GET result is the 500 catch branch. -/
def isServerError : GeoGETResult → Bool
  | .serverError _ => true
  | _ => false

theorem jsOr_ne_empty (a : Option String) (d : String) (h : d ≠ "") : jsOr a d ≠ "" := by
  cases a with
  | none => simpa [jsOr]
  | some s =>
    simp only [jsOr]
    split
    · exact h
    · assumption

theorem timerInv_initial : timerInv initialState := rfl

theorem clearPolling_pollingIntervalId (s : OrchState) :
    (clearPolling s).pollingIntervalId = none := by
  unfold clearPolling
  split <;> simp_all

theorem clearPolling_activeTimers (s : OrchState) (h : timerInv s) :
    (clearPolling s).activeTimers = [] := by
  unfold clearPolling
  split
  · next id heq => simp [timerInv, heq] at h; simp [h]
  · next heq => simp [timerInv, heq] at h; simp [h]

theorem timerInv_clearPolling (s : OrchState) (h : timerInv s) :
    timerInv (clearPolling s) := by
  unfold timerInv
  rw [clearPolling_activeTimers s h, clearPolling_pollingIntervalId s]
  rfl

theorem timerInv_of_timerFields {s t : OrchState} (h : timerFields t = timerFields s)
    (hs : timerInv s) : timerInv t := by
  unfold timerFields at h
  unfold timerInv at *
  have h1 : t.activeTimers = s.activeTimers := congrArg Prod.fst h
  have h2 : t.pollingIntervalId = s.pollingIntervalId := congrArg Prod.snd h
  rw [h1, h2]
  exact hs

theorem timerFields_updateStatus (s : OrchState) (m : String) (e : Bool) :
    timerFields (updateStatus s m e) = timerFields s := rfl

theorem timerFields_handleGetLocationDevice (s : OrchState) (geo : GeoOutcome) :
    timerFields (handleGetLocationDevice s geo).1 = timerFields s := by
  cases geo <;> simp [handleGetLocationDevice, updateStatus, timerFields]

theorem timerFields_handleGetLocation (s : OrchState) (geo : GeoOutcome) :
    timerFields (handleGetLocation s geo).1 = timerFields s := by
  unfold handleGetLocation
  split
  · split
    · rfl
    · exact timerFields_handleGetLocationDevice s geo
  · exact timerFields_handleGetLocationDevice s geo

theorem timerFields_handleGetLocationName (s : OrchState) (loc : LocationData)
    (o : GeocodeOutcome) :
    timerFields (handleGetLocationName s loc o).1 = timerFields s := by
  cases o with
  | netError => rfl
  | response ok body =>
    cases body with
    | none => rfl
    | some data =>
      cases ok with
      | false => rfl
      | true =>
        cases hdl : data.location <;>
          simp [handleGetLocationName, hdl, updateStatus, timerFields]

theorem timerFields_handleGetWeather (s : OrchState) (loc : LocationData)
    (o : WeatherOutcome) :
    timerFields (handleGetWeather s loc o).1 = timerFields s := by
  unfold handleGetWeather
  cases o with
  | netError => rfl
  | response ok body =>
    cases body with
    | none => rfl
    | some data =>
      cases ok
      · rfl
      · simp only [Bool.not_true, Bool.false_eq_true, if_false, if_true]
        split <;> first
          | rfl
          | (split <;> simp [updateStatus, timerFields])

theorem timerFields_createAndSetPrompt (s : OrchState) (loc : LocationData)
    (w : WeatherData) (o : EnhanceOutcome) :
    timerFields (createAndSetPrompt s loc w o).1 = timerFields s := by
  unfold createAndSetPrompt
  cases o with
  | netError => rfl
  | response ok body =>
    cases ok
    · rfl
    · cases body with
      | none => rfl
      | some data =>
        simp only [Bool.not_true, Bool.false_eq_true, if_false, if_true]
        split <;> [skip; rfl]
        split <;> rfl

theorem weather_handleGetLocationName (s : OrchState) (loc : LocationData)
    (o : GeocodeOutcome) :
    (handleGetLocationName s loc o).1.weather = s.weather := by
  cases o with
  | netError => rfl
  | response ok body =>
    cases body with
    | none => rfl
    | some data =>
      cases ok
      · rfl
      · cases hdl : data.location <;> simp [handleGetLocationName, hdl, updateStatus]

theorem useMetNorwayApi_handleGetLocationName (s : OrchState) (loc : LocationData)
    (o : GeocodeOutcome) :
    (handleGetLocationName s loc o).1.useMetNorwayApi = s.useMetNorwayApi := by
  cases o with
  | netError => rfl
  | response ok body =>
    cases body with
    | none => rfl
    | some data =>
      cases ok
      · rfl
      · cases hdl : data.location <;> simp [handleGetLocationName, hdl, updateStatus]

theorem weather_createAndSetPrompt (s : OrchState) (loc : LocationData)
    (w : WeatherData) (o : EnhanceOutcome) :
    (createAndSetPrompt s loc w o).1.weather = s.weather := by
  unfold createAndSetPrompt
  cases o with
  | netError => rfl
  | response ok body =>
    cases ok
    · rfl
    · cases body with
      | none => rfl
      | some data =>
        simp only [Bool.not_true, Bool.false_eq_true, if_false, if_true]
        split <;> [skip; rfl]
        split <;> rfl

theorem weather_handleStartGeneration (s : OrchState) (o : SubmitOutcome) :
    (handleStartGeneration s o).weather = s.weather := by
  unfold handleStartGeneration
  have hcp : ∀ t : OrchState, (clearPolling t).weather = t.weather := by
    intro t
    unfold clearPolling
    split <;> rfl
  cases o with
  | netError msg => simp [updateStatus, hcp]
  | nonJson a b => simp [updateStatus, hcp]
  | jsonParseError a b => simp [updateStatus, hcp]
  | json st body =>
    simp only [updateStatus]
    split
    · simp [hcp, updateStatus]
    · split <;> simp [hcp, updateStatus]

theorem timerInv_pollCatch (s : OrchState) (b : Bool) (m : String) (h : timerInv s) :
    timerInv (pollCatch s b m) := by
  unfold timerInv at *
  cases b <;> simp [pollCatch, updateStatus] <;> exact h

theorem timerInv_handleStartGeneration (s : OrchState) (o : SubmitOutcome)
    (h : timerInv s) : timerInv (handleStartGeneration s o) := by
  unfold timerInv at *
  cases hpi : s.pollingIntervalId with
  | none =>
    rw [hpi] at h
    simp only [Option.toList] at h
    cases o with
    | netError msg =>
      simp [handleStartGeneration, updateStatus, clearPolling, hpi, h]
    | nonJson a b =>
      simp [handleStartGeneration, updateStatus, clearPolling, hpi, h]
    | jsonParseError a b =>
      simp [handleStartGeneration, updateStatus, clearPolling, hpi, h]
    | json st body =>
      simp only [handleStartGeneration, updateStatus, clearPolling, hpi, h]
      split
      · simp [h]
      · split <;> simp [h]
  | some id =>
    rw [hpi] at h
    simp only [Option.toList] at h
    cases o with
    | netError msg =>
      simp [handleStartGeneration, updateStatus, clearPolling, hpi, h]
    | nonJson a b =>
      simp [handleStartGeneration, updateStatus, clearPolling, hpi, h]
    | jsonParseError a b =>
      simp [handleStartGeneration, updateStatus, clearPolling, hpi, h]
    | json st body =>
      simp only [handleStartGeneration, updateStatus, clearPolling, hpi, h]
      split
      · simp [h]
      · split <;> simp [h]

theorem timerInv_handleFetchResult (s : OrchState) (idc : Option String) (b : Bool)
    (o : PollOutcome) (h : timerInv s) : timerInv (handleFetchResult s idc b o) := by
  unfold timerInv at *
  by_cases hid : jsTruthy idc = true
  · cases hpi : s.pollingIntervalId with
    | none =>
      rw [hpi] at h
      simp only [Option.toList] at h
      cases o <;> cases b <;>
        simp [handleFetchResult, hid, pollCatch, updateStatus, clearPolling, hpi, h] <;>
        (repeat' split) <;>
        simp_all [clearPolling, updateStatus, pollCatch]
    | some id =>
      rw [hpi] at h
      simp only [Option.toList] at h
      cases o <;> cases b <;>
        simp [handleFetchResult, hid, pollCatch, updateStatus, clearPolling, hpi, h] <;>
        (repeat' split) <;>
        simp_all [clearPolling, updateStatus, pollCatch]
  · simp only [handleFetchResult, Bool.not_eq_true] at *
    simp [hid, updateStatus, h]

theorem timerInv_handleGenerateClick (s : OrchState) (env : RunEnv) (h : timerInv s) :
    timerInv (handleGenerateClick s env) := by
  have h0 : timerInv ({ s with isLoading := true, error := none, prompt := some "", imageUrl := none, predictionId := none, showFetchButton := false } : OrchState) := by
    unfold timerInv at *
    simpa using h
  have h1 := timerInv_clearPolling _ h0
  simp only [handleGenerateClick]
  rcases hgl : handleGetLocation (clearPolling { s with isLoading := true, error := none, prompt := some "", imageUrl := none, predictionId := none, showFetchButton := false }) env.geo with ⟨t2, res⟩
  have h2 : timerInv t2 := by
    refine timerInv_of_timerFields ?_ h1
    have hf := timerFields_handleGetLocation (clearPolling { s with isLoading := true, error := none, prompt := some "", imageUrl := none, predictionId := none, showFetchButton := false }) env.geo
    rw [hgl] at hf
    exact hf
  cases res with
  | error msg =>
    simp only [hgl]
    have h3 : timerInv ({ updateStatus t2 msg true with isLoading := false } : OrchState) := by
      unfold timerInv updateStatus at *
      simpa using h2
    have h4 := timerInv_clearPolling _ h3
    unfold timerInv at h4 ⊢
    simpa using h4
  | ok loc =>
    simp only [hgl]
    rcases hn : handleGetLocationName t2 loc env.geocode with ⟨t3, locN⟩
    have h3 : timerInv t3 := by
      refine timerInv_of_timerFields ?_ h2
      have hf := timerFields_handleGetLocationName t2 loc env.geocode
      rw [hn] at hf
      exact hf
    simp only [hn]
    rcases hw : handleGetWeather t3 locN env.weather with ⟨t4, w⟩
    have h4 : timerInv t4 := by
      refine timerInv_of_timerFields ?_ h3
      have hf := timerFields_handleGetWeather t3 locN env.weather
      rw [hw] at hf
      exact hf
    simp only [hw]
    rcases hc : createAndSetPrompt t4 locN w env.enhance with ⟨t5, pr⟩
    have h5 : timerInv t5 := by
      refine timerInv_of_timerFields ?_ h4
      have hf := timerFields_createAndSetPrompt t4 locN w env.enhance
      rw [hc] at hf
      exact hf
    simp only [hc]
    exact timerInv_handleStartGeneration t5 env.submit h5

theorem timerInv_handleReRoll (s : OrchState) (e : EnhanceOutcome) (su : SubmitOutcome)
    (env : RunEnv) (h : timerInv s) : timerInv (handleReRoll s e su env) := by
  have h0 : timerInv ({ s with isLoading := true, error := none, imageUrl := none, predictionId := none, showFetchButton := false } : OrchState) := by
    unfold timerInv at *
    simpa using h
  have h1 := timerInv_clearPolling _ h0
  simp only [handleReRoll]
  set t := clearPolling { s with isLoading := true, error := none, imageUrl := none, predictionId := none, showFetchButton := false } with ht
  cases hl : t.location with
  | none =>
    cases hw : t.weather <;> simp only [hl, hw] <;>
      exact timerInv_handleGenerateClick t env h1
  | some loc =>
    cases hw : t.weather with
    | none =>
      simp only [hl, hw]
      exact timerInv_handleGenerateClick t env h1
    | some w =>
      simp only [hl, hw]
      rcases hc : createAndSetPrompt t loc w e with ⟨t2, pr⟩
      have h2 : timerInv t2 := by
        refine timerInv_of_timerFields ?_ h1
        have hf := timerFields_createAndSetPrompt t loc w e
        rw [hc] at hf
        exact hf
      simp only [hc]
      exact timerInv_handleStartGeneration t2 su h2

theorem timerInv_handleSubjectSelect (s : OrchState) (t : SubjectType)
    (e : EnhanceOutcome) (h : timerInv s) : timerInv (handleSubjectSelect s t e) := by
  have h0 : timerInv (updateStatus { s with selectedSubject := t } ("Selected subject type: " ++ subjectTypeStr t) false) := by
    unfold timerInv updateStatus at *
    simpa using h
  simp only [handleSubjectSelect]
  set p := updateStatus { s with selectedSubject := t } ("Selected subject type: " ++ subjectTypeStr t) false with hp
  cases hl : p.location with
  | none => cases hw : p.weather <;> simp only [hl, hw] <;> exact h0
  | some loc =>
    cases hw : p.weather with
    | none =>
      simp only [hl, hw]
      exact h0
    | some w =>
      simp only [hl, hw]
      refine timerInv_of_timerFields ?_ h0
      exact timerFields_createAndSetPrompt p loc w e

theorem timerFields_handleMapLocationChange (s : OrchState) (lat lng : Int) :
    timerFields (handleMapLocationChange s lat lng) = timerFields s := by
  unfold handleMapLocationChange
  split
  · rfl
  · cases hl : s.location with
    | none => simp [updateStatus, timerFields]
    | some prev =>
      by_cases hc : prev.latitude = lat ∧ prev.longitude = lng <;>
        simp [updateStatus, hc, timerFields]

theorem timerInv_step (s : OrchState) (a : UserAction) (h : timerInv s) :
    timerInv (step s a) := by
  cases a with
  | generateClick env => exact timerInv_handleGenerateClick s env h
  | reRoll e su env => exact timerInv_handleReRoll s e su env h
  | pollTick jobId o =>
    simp only [step]
    split
    · exact timerInv_handleFetchResult s (some jobId) true o h
    · exact h
  | checkStatus o =>
    simp only [step]
    split
    · exact timerInv_handleFetchResult s s.predictionId false o h
    · exact h
  | subjectSelect t e => exact timerInv_handleSubjectSelect s t e h
  | mapChange lat lng =>
    exact timerInv_of_timerFields (timerFields_handleMapLocationChange s lat lng) h
  | toggleApi =>
    simp only [step, handleToggleWeatherApi]
    unfold timerInv updateStatus at *
    simpa using h
  | setNewLocation =>
    simp only [step, handleSetNewLocation]
    unfold timerInv at *
    simpa using h

theorem timerInv_foldl (s : OrchState) (acts : List UserAction) (h : timerInv s) :
    timerInv (acts.foldl step s) := by
  induction acts generalizing s with
  | nil => exact h
  | cons a rest ih => exact ih (step s a) (timerInv_step s a h)

/-- C1: at most one polling timer is active at any time: along every sequence of
user actions from a state whose timer table matches its handle, the timer
accounting is preserved, at most one interval timer is live, and whenever a
polling handle exists exactly that one timer is live (idempotent replacement). -/
theorem c1_at_most_one_polling_timer (s0 : OrchState) (acts : List UserAction)
    (h : timerInv s0) :
    timerInv (acts.foldl step s0) ∧
    (acts.foldl step s0).activeTimers.length ≤ 1 ∧
    (∀ id, (acts.foldl step s0).pollingIntervalId = some id →
      (acts.foldl step s0).activeTimers = [id]) := by
  have hf := timerInv_foldl s0 acts h
  refine ⟨hf, ?_, ?_⟩
  · unfold timerInv at hf
    rw [hf]
    cases (acts.foldl step s0).pollingIntervalId <;> simp
  · intro id hid
    unfold timerInv at hf
    rw [hf, hid]
    rfl

/-- Witness for C1: two back-to-back generation runs with successful submissions
leave exactly one live timer. -/
theorem c1_at_most_one_polling_timer_witness :
    timerInv ([UserAction.generateClick envOkSubmit,
               UserAction.generateClick envOkSubmit].foldl step initialState) ∧
    ([UserAction.generateClick envOkSubmit,
      UserAction.generateClick envOkSubmit].foldl step initialState).activeTimers.length ≤ 1 ∧
    (∀ id, ([UserAction.generateClick envOkSubmit,
             UserAction.generateClick envOkSubmit].foldl step initialState).pollingIntervalId = some id →
      ([UserAction.generateClick envOkSubmit,
        UserAction.generateClick envOkSubmit].foldl step initialState).activeTimers = [id]) :=
  c1_at_most_one_polling_timer initialState
    [UserAction.generateClick envOkSubmit, UserAction.generateClick envOkSubmit] rfl

theorem respOk_false_of_ge_400 (st : Nat) (h4 : 400 ≤ st) : respOk st = false := by
  simp only [respOk, Bool.and_eq_false_iff, decide_eq_false_iff_not]
  omega

/-- Counterexample to C2 as stated: a poll whose response has HTTP status 404
but a non-JSON (HTML) body hits the content-type throw before the 4xx check,
so the timer is NOT cleared and the Check Status affordance is NOT hidden. -/
theorem c2_counterexample :
    (handleFetchResult pollingState (some "p1") true
      (.nonJson 404 "Not Found" "<html>err</html>")).pollingIntervalId = some 1 ∧
    (handleFetchResult pollingState (some "p1") true
      (.nonJson 404 "Not Found" "<html>err</html>")).activeTimers = [1] ∧
    (handleFetchResult pollingState (some "p1") true
      (.nonJson 404 "Not Found" "<html>err</html>")).showFetchButton = true := by
  refine ⟨rfl, rfl, rfl⟩

/-- C2 (amended): during polling, an error response whose body was delivered as
parsed JSON stops the timer and hides the Check Status affordance iff its HTTP
status is 4xx; transport errors, non-JSON responses (any status, 404 included)
and JSON parse failures never stop the timer, and a JSON error response outside
the 4xx range (e.g. HTTP 500) keeps the timer running. -/
theorem c2_poll_error_stop_iff_4xx_json (s : OrchState) (jobId : String)
    (isPolling : Bool) (hj : jobId ≠ "") (h : timerInv s) :
    (∀ st stx p, 400 ≤ st → st < 500 →
      (handleFetchResult s (some jobId) isPolling (.json st stx p)).pollingIntervalId = none ∧
      (handleFetchResult s (some jobId) isPolling (.json st stx p)).activeTimers = [] ∧
      (handleFetchResult s (some jobId) isPolling (.json st stx p)).showFetchButton = false) ∧
    (∀ st stx p, respOk st = false ∨ jsTruthy p.error = true → ¬(400 ≤ st ∧ st < 500) →
      (handleFetchResult s (some jobId) isPolling (.json st stx p)).pollingIntervalId = s.pollingIntervalId ∧
      (handleFetchResult s (some jobId) isPolling (.json st stx p)).activeTimers = s.activeTimers) ∧
    (∀ msg,
      (handleFetchResult s (some jobId) isPolling (.netError msg)).pollingIntervalId = s.pollingIntervalId ∧
      (handleFetchResult s (some jobId) isPolling (.netError msg)).activeTimers = s.activeTimers) ∧
    (∀ st stx t,
      (handleFetchResult s (some jobId) isPolling (.nonJson st stx t)).pollingIntervalId = s.pollingIntervalId ∧
      (handleFetchResult s (some jobId) isPolling (.nonJson st stx t)).activeTimers = s.activeTimers) ∧
    (∀ st stx m,
      (handleFetchResult s (some jobId) isPolling (.jsonParseError st stx m)).pollingIntervalId = s.pollingIntervalId ∧
      (handleFetchResult s (some jobId) isPolling (.jsonParseError st stx m)).activeTimers = s.activeTimers) := by
  have hjt : jsTruthy (some jobId) = true := by simp [jsTruthy, hj]
  refine ⟨?_, ?_, ?_, ?_, ?_⟩
  · intro st stx p h4a h4b
    have hro := respOk_false_of_ge_400 st h4a
    unfold timerInv at h
    cases hpi : s.pollingIntervalId with
    | none =>
      rw [hpi] at h
      simp only [Option.toList] at h
      cases isPolling <;>
        simp [handleFetchResult, hjt, hro, pollCatch, updateStatus, clearPolling, hpi, h,
          h4a, h4b]
    | some id =>
      rw [hpi] at h
      simp only [Option.toList] at h
      cases isPolling <;>
        simp [handleFetchResult, hjt, hro, pollCatch, updateStatus, clearPolling, hpi, h,
          h4a, h4b]
  · intro st stx p herr hn
    cases herr with
    | inl hro =>
      cases isPolling <;>
        simp [handleFetchResult, hjt, hro, hn, pollCatch, updateStatus]
    | inr he =>
      cases isPolling <;>
        simp [handleFetchResult, hjt, he, hn, pollCatch, updateStatus]
  · intro msg
    cases isPolling <;> simp [handleFetchResult, hjt, pollCatch, updateStatus]
  · intro st stx t
    cases isPolling <;> simp [handleFetchResult, hjt, pollCatch, updateStatus]
  · intro st stx m
    cases isPolling <;> simp [handleFetchResult, hjt, pollCatch, updateStatus]

/-- Witness for C2 (amended): from the mid-poll state, a parsed-JSON 404 clears
the timer while a parsed-JSON 500 leaves the single timer running. -/
theorem c2_poll_error_stop_iff_4xx_json_witness :
    (handleFetchResult pollingState (some "p1") true
      (.json 404 "Not Found" processingPrediction)).pollingIntervalId = none ∧
    (handleFetchResult pollingState (some "p1") true
      (.json 404 "Not Found" processingPrediction)).activeTimers = [] ∧
    (handleFetchResult pollingState (some "p1") true
      (.json 500 "Internal Server Error" processingPrediction)).pollingIntervalId = some 1 ∧
    (handleFetchResult pollingState (some "p1") true
      (.json 500 "Internal Server Error" processingPrediction)).activeTimers = [1] := by
  have hthm := c2_poll_error_stop_iff_4xx_json pollingState "p1" true (by decide) rfl
  refine ⟨(hthm.1 404 "Not Found" processingPrediction (by omega) (by omega)).1,
          (hthm.1 404 "Not Found" processingPrediction (by omega) (by omega)).2.1,
          ?_, ?_⟩
  · exact (hthm.2.1 500 "Internal Server Error" processingPrediction
      (Or.inl (by decide)) (by omega)).1
  · exact (hthm.2.1 500 "Internal Server Error" processingPrediction
      (Or.inl (by decide)) (by omega)).2

/-- C3 evaluated at the failing input: a timer-driven poll (isPolling = true)
that observes terminal status `failed` clears the timer and raises the error,
but leaves `isLoading` true — the statements after the `throw` in the
`failed`/`canceled` case of the source are unreachable, and the catch resets
`isLoading` only for manual polls, so the Generate button stays disabled. -/
theorem c3_terminal_poll_keeps_loading_indicator :
    (handleFetchResult pollingState (some "p1") true
      (.json 200 "OK" failedPrediction)).isLoading = true ∧
    (handleFetchResult pollingState (some "p1") true
      (.json 200 "OK" failedPrediction)).pollingIntervalId = none ∧
    (handleFetchResult pollingState (some "p1") true
      (.json 200 "OK" failedPrediction)).error =
      some "Image generation failed. Reason: Unknown" ∧
    (handleFetchResult pollingState (some "p1") false
      (.json 200 "OK" failedPrediction)).isLoading = false := by
  refine ⟨rfl, rfl, rfl, rfl⟩

/-- C4: a poll whose parsed body has status "succeeded" and a non-empty output
list ends the run in Succeeded: timer cleared, first output URL recorded, job
id cleared, manual fetch affordance hidden, loading off, no error. -/
theorem c4_succeeded_with_output (s : OrchState) (jobId : String) (isPolling : Bool)
    (st : Nat) (stx : String) (p : Prediction) (url : String) (rest : List String)
    (hj : jobId ≠ "") (h : timerInv s) (hok : respOk st = true)
    (herr : jsTruthy p.error = false) (hst : p.status = "succeeded")
    (hout : p.output = some (url :: rest)) :
    (handleFetchResult s (some jobId) isPolling (.json st stx p)).pollingIntervalId = none ∧
    (handleFetchResult s (some jobId) isPolling (.json st stx p)).activeTimers = [] ∧
    (handleFetchResult s (some jobId) isPolling (.json st stx p)).imageUrl = some url ∧
    (handleFetchResult s (some jobId) isPolling (.json st stx p)).predictionId = none ∧
    (handleFetchResult s (some jobId) isPolling (.json st stx p)).showFetchButton = false ∧
    (handleFetchResult s (some jobId) isPolling (.json st stx p)).isLoading = false ∧
    (handleFetchResult s (some jobId) isPolling (.json st stx p)).error = none ∧
    (handleFetchResult s (some jobId) isPolling (.json st stx p)).status =
      "Image generation successful!" := by
  have hjt : jsTruthy (some jobId) = true := by simp [jsTruthy, hj]
  unfold timerInv at h
  cases hpi : s.pollingIntervalId with
  | none =>
    rw [hpi] at h
    simp only [Option.toList] at h
    cases isPolling <;>
      simp [handleFetchResult, hjt, hok, herr, hst, hout, pollCatch, updateStatus,
        clearPolling, hpi, h]
  | some id =>
    rw [hpi] at h
    simp only [Option.toList] at h
    cases isPolling <;>
      simp [handleFetchResult, hjt, hok, herr, hst, hout, pollCatch, updateStatus,
        clearPolling, hpi, h]

/-- Witness for C4: from the mid-poll state, a succeeded poll with output
["https://x/img.png"] records that URL and stops everything. -/
theorem c4_succeeded_with_output_witness :
    (handleFetchResult pollingState (some "p1") true
      (.json 200 "OK" succeededPrediction)).pollingIntervalId = none ∧
    (handleFetchResult pollingState (some "p1") true
      (.json 200 "OK" succeededPrediction)).activeTimers = [] ∧
    (handleFetchResult pollingState (some "p1") true
      (.json 200 "OK" succeededPrediction)).imageUrl = some "https://x/img.png" ∧
    (handleFetchResult pollingState (some "p1") true
      (.json 200 "OK" succeededPrediction)).predictionId = none ∧
    (handleFetchResult pollingState (some "p1") true
      (.json 200 "OK" succeededPrediction)).showFetchButton = false ∧
    (handleFetchResult pollingState (some "p1") true
      (.json 200 "OK" succeededPrediction)).isLoading = false ∧
    (handleFetchResult pollingState (some "p1") true
      (.json 200 "OK" succeededPrediction)).error = none ∧
    (handleFetchResult pollingState (some "p1") true
      (.json 200 "OK" succeededPrediction)).status = "Image generation successful!" :=
  c4_succeeded_with_output pollingState "p1" true 200 "OK" succeededPrediction
    "https://x/img.png" [] (by decide) rfl (by decide) (by decide) (by decide) (by decide)

/-- C5: a poll whose parsed body has status "succeeded" but an empty or absent
output list ends the run in Failed: timer cleared, error flag set with the
missing-output message, and no image URL recorded. -/
theorem c5_succeeded_empty_output (s : OrchState) (jobId : String) (isPolling : Bool)
    (st : Nat) (stx : String) (p : Prediction)
    (hj : jobId ≠ "") (h : timerInv s) (hok : respOk st = true)
    (herr : jsTruthy p.error = false) (hst : p.status = "succeeded")
    (hout : p.output = some [] ∨ p.output = none) :
    (handleFetchResult s (some jobId) isPolling (.json st stx p)).pollingIntervalId = none ∧
    (handleFetchResult s (some jobId) isPolling (.json st stx p)).activeTimers = [] ∧
    (handleFetchResult s (some jobId) isPolling (.json st stx p)).error =
      some "Prediction succeeded but no output URL was found." ∧
    (handleFetchResult s (some jobId) isPolling (.json st stx p)).status =
      "Prediction succeeded but no output URL was found." ∧
    (handleFetchResult s (some jobId) isPolling (.json st stx p)).imageUrl = s.imageUrl := by
  have hjt : jsTruthy (some jobId) = true := by simp [jsTruthy, hj]
  unfold timerInv at h
  cases hpi : s.pollingIntervalId with
  | none =>
    rw [hpi] at h
    simp only [Option.toList] at h
    cases hout with
    | inl ho =>
      cases isPolling <;>
        simp [handleFetchResult, hjt, hok, herr, hst, ho, pollCatch, updateStatus,
          clearPolling, hpi, h]
    | inr ho =>
      cases isPolling <;>
        simp [handleFetchResult, hjt, hok, herr, hst, ho, pollCatch, updateStatus,
          clearPolling, hpi, h]
  | some id =>
    rw [hpi] at h
    simp only [Option.toList] at h
    cases hout with
    | inl ho =>
      cases isPolling <;>
        simp [handleFetchResult, hjt, hok, herr, hst, ho, pollCatch, updateStatus,
          clearPolling, hpi, h]
    | inr ho =>
      cases isPolling <;>
        simp [handleFetchResult, hjt, hok, herr, hst, ho, pollCatch, updateStatus,
          clearPolling, hpi, h]

/-- Witness for C5: from the mid-poll state, a succeeded poll with empty output
stops the timer and fails with the missing-output message. -/
theorem c5_succeeded_empty_output_witness :
    (handleFetchResult pollingState (some "p1") true
      (.json 200 "OK" emptyOutputPrediction)).pollingIntervalId = none ∧
    (handleFetchResult pollingState (some "p1") true
      (.json 200 "OK" emptyOutputPrediction)).activeTimers = [] ∧
    (handleFetchResult pollingState (some "p1") true
      (.json 200 "OK" emptyOutputPrediction)).error =
      some "Prediction succeeded but no output URL was found." ∧
    (handleFetchResult pollingState (some "p1") true
      (.json 200 "OK" emptyOutputPrediction)).status =
      "Prediction succeeded but no output URL was found." ∧
    (handleFetchResult pollingState (some "p1") true
      (.json 200 "OK" emptyOutputPrediction)).imageUrl = pollingState.imageUrl :=
  c5_succeeded_empty_output pollingState "p1" true 200 "OK" emptyOutputPrediction
    (by decide) rfl (by decide) (by decide) (by decide) (Or.inl (by decide))

theorem handleGetWeather_fails (t : OrchState) (loc : LocationData) (o : WeatherOutcome)
    (hfail : weatherFails t.useMetNorwayApi o = true) :
    handleGetWeather t loc o = (weatherFailState t loc, defaultWeather loc) := by
  cases o with
  | netError => rfl
  | response ok body =>
    cases body with
    | none => rfl
    | some data =>
      cases ok with
      | false => rfl
      | true =>
        simp only [weatherFails, Bool.not_true, Bool.false_or, Bool.and_eq_true] at hfail
        obtain ⟨h1, h2⟩ := hfail
        rw [Option.isNone_iff_eq_none] at h2
        simp [handleGetWeather, h1, h2, updateStatus, weatherFailState]

theorem useMetNorwayApi_handleGetLocationDevice (s : OrchState) (geo : GeoOutcome) :
    (handleGetLocationDevice s geo).1.useMetNorwayApi = s.useMetNorwayApi := by
  cases geo <;> simp [handleGetLocationDevice, updateStatus]

theorem useMetNorwayApi_handleGetLocation (s : OrchState) (geo : GeoOutcome) :
    (handleGetLocation s geo).1.useMetNorwayApi = s.useMetNorwayApi := by
  unfold handleGetLocation
  split
  · split
    · rfl
    · exact useMetNorwayApi_handleGetLocationDevice s geo
  · exact useMetNorwayApi_handleGetLocationDevice s geo

theorem handleGetLocation_position_ok (t : OrchState) (lat lon : Int) (alt : Option Int) :
    ∃ t' loc, handleGetLocation t (.position lat lon alt) = (t', Except.ok loc) := by
  unfold handleGetLocation
  split
  · split
    · exact ⟨_, _, rfl⟩
    · exact ⟨_, _, rfl⟩
  · exact ⟨_, _, rfl⟩

theorem useMetNorwayApi_clearPolling (s : OrchState) :
    (clearPolling s).useMetNorwayApi = s.useMetNorwayApi := by
  unfold clearPolling
  split <;> rfl

/-- C6: every weather-fetch failure (network error, non-2xx response, or
malformed body) yields and stores the fixed default WeatherSnapshot with
temperature "unknown" and description "unknown conditions", and a run whose
weather stage fails still proceeds to prompt composition (with the default
weather) and on to submission instead of aborting. -/
theorem c6_weather_failure_uses_default (s : OrchState) (loc : LocationData)
    (o : WeatherOutcome) (hfail : weatherFails s.useMetNorwayApi o = true) :
    (handleGetWeather s loc o).2 = defaultWeather loc ∧
    (handleGetWeather s loc o).2.temp = some (TempVal.str "unknown") ∧
    (handleGetWeather s loc o).2.description = "unknown conditions" ∧
    (handleGetWeather s loc o).1.weather = some (defaultWeather loc) ∧
    (∀ env : RunEnv, ∀ lat lon alt, env.weather = o →
      env.geo = GeoOutcome.position lat lon alt →
      ∃ locN s4, handleGenerateClick s env =
          handleStartGeneration
            (createAndSetPrompt s4 locN (defaultWeather locN) env.enhance).1 env.submit ∧
        s4.weather = some (defaultWeather locN) ∧
        (handleGenerateClick s env).weather = some (defaultWeather locN)) := by
  have hmain := handleGetWeather_fails s loc o hfail
  refine ⟨by rw [hmain], by rw [hmain]; rfl, by rw [hmain]; rfl, by rw [hmain]; rfl, ?_⟩
  intro env lat lon alt hw hg
  simp only [handleGenerateClick, hg]
  set t := clearPolling { s with isLoading := true, error := none, prompt := some "", imageUrl := none, predictionId := none, showFetchButton := false } with hT
  obtain ⟨t2, loc2, hgl⟩ := handleGetLocation_position_ok t lat lon alt
  simp only [hgl]
  rcases hn : handleGetLocationName t2 loc2 env.geocode with ⟨t3, locN⟩
  simp only [hn]
  have hmet : t3.useMetNorwayApi = s.useMetNorwayApi := by
    have e1 := useMetNorwayApi_handleGetLocationName t2 loc2 env.geocode
    rw [hn] at e1
    have e1b : t3.useMetNorwayApi = t2.useMetNorwayApi := e1
    have e2 := useMetNorwayApi_handleGetLocation t (GeoOutcome.position lat lon alt)
    rw [hgl] at e2
    have e2b : t2.useMetNorwayApi = t.useMetNorwayApi := e2
    have e3 : t.useMetNorwayApi = s.useMetNorwayApi := by
      rw [hT]
      rw [useMetNorwayApi_clearPolling]
    rw [e1b, e2b, e3]
  have hfail3 : weatherFails t3.useMetNorwayApi o = true := by
    rw [hmet]
    exact hfail
  have hwmain := handleGetWeather_fails t3 locN o hfail3
  simp only [hw, hwmain]
  refine ⟨locN, weatherFailState t3 locN, ?_, rfl, ?_⟩
  · rcases hc : createAndSetPrompt (weatherFailState t3 locN) locN (defaultWeather locN)
      env.enhance with ⟨t5, pr⟩
    simp only [hc]
  · rcases hc : createAndSetPrompt (weatherFailState t3 locN) locN (defaultWeather locN)
      env.enhance with ⟨t5, pr⟩
    simp only [hc]
    rw [weather_handleStartGeneration]
    have e := weather_createAndSetPrompt (weatherFailState t3 locN) locN
      (defaultWeather locN) env.enhance
    rw [hc] at e
    rw [e]
    rfl

/-- Witness for C6: a network failure of the weather fetch from the initial
state stores the default snapshot, and the envOkSubmit run (whose weather
outcome is that failure) still reaches prompt composition and submission. -/
theorem c6_weather_failure_uses_default_witness :
    (handleGetWeather initialState witnessLoc .netError).2 = defaultWeather witnessLoc ∧
    (handleGetWeather initialState witnessLoc .netError).2.temp =
      some (TempVal.str "unknown") ∧
    (handleGetWeather initialState witnessLoc .netError).2.description =
      "unknown conditions" ∧
    (handleGetWeather initialState witnessLoc .netError).1.weather =
      some (defaultWeather witnessLoc) ∧
    (∃ locN s4, handleGenerateClick initialState envOkSubmit =
        handleStartGeneration
          (createAndSetPrompt s4 locN (defaultWeather locN) envOkSubmit.enhance).1
          envOkSubmit.submit ∧
      s4.weather = some (defaultWeather locN) ∧
      (handleGenerateClick initialState envOkSubmit).weather =
        some (defaultWeather locN)) := by
  have h := c6_weather_failure_uses_default initialState witnessLoc .netError rfl
  exact ⟨h.1, h.2.1, h.2.2.1, h.2.2.2.1, h.2.2.2.2 envOkSubmit 59 10 none rfl rfl⟩

theorem fallbackPrompt_ne_empty (loc : LocationData) (w : WeatherData)
    (t : SubjectType) : fallbackPrompt loc w t ≠ "" := by
  intro hcontra
  have hlen := congrArg String.length hcontra
  simp only [fallbackPrompt, String.length_append] at hlen
  have h0 : ("" : String).length = 0 := rfl
  rw [h0] at hlen
  have hpos : 0 < ("Lifestyle magazine cover photo of an outdoor scene in " : String).length := by
    decide
  omega

/-- C7: every failure of the prompt-enrichment call (non-ok response, parse
failure, or thrown fetch error) makes `createAndSetPrompt` return and store,
byte for byte, the deterministic fallback prompt computed from the location,
weather and subject templates; that fallback is never empty. -/
theorem c7_enhancement_failure_fallback (s : OrchState) (loc : LocationData)
    (w : WeatherData) (o : EnhanceOutcome) (hfail : enhanceFails o = true) :
    (createAndSetPrompt s loc w o).2 = some (fallbackPrompt loc w s.selectedSubject) ∧
    (createAndSetPrompt s loc w o).1.prompt =
      some (fallbackPrompt loc w s.selectedSubject) ∧
    fallbackPrompt loc w s.selectedSubject ≠ "" := by
  refine ⟨?_, ?_, fallbackPrompt_ne_empty loc w s.selectedSubject⟩ <;>
  · cases o with
    | netError => rfl
    | response ok body =>
      cases ok with
      | false => rfl
      | true =>
        simp only [enhanceFails, Bool.not_true, Bool.false_or,
          Option.isNone_iff_eq_none] at hfail
        rw [hfail]
        rfl

/-- Witness for C7: a network failure of the enrichment call from the initial
state yields exactly the fallback prompt for the witness location and default
weather, and that prompt is non-empty. -/
theorem c7_enhancement_failure_fallback_witness :
    (createAndSetPrompt initialState witnessLoc (defaultWeather witnessLoc) .netError).2 =
      some (fallbackPrompt witnessLoc (defaultWeather witnessLoc)
        initialState.selectedSubject) ∧
    (createAndSetPrompt initialState witnessLoc (defaultWeather witnessLoc)
        .netError).1.prompt =
      some (fallbackPrompt witnessLoc (defaultWeather witnessLoc)
        initialState.selectedSubject) ∧
    fallbackPrompt witnessLoc (defaultWeather witnessLoc)
      initialState.selectedSubject ≠ "" :=
  c7_enhancement_failure_fallback initialState witnessLoc (defaultWeather witnessLoc)
    .netError rfl

theorem handleGetLocation_fails (t : OrchState) (geo : GeoOutcome)
    (hnm : locNotManual t) (hfail : geoFails geo = true) :
    ∃ t', handleGetLocation t geo = (t', Except.error (geoFailMsg geo)) := by
  cases geo with
  | unsupported =>
    unfold handleGetLocation
    split
    · next l heq =>
      rw [hnm l heq]
      exact ⟨t, rfl⟩
    · exact ⟨t, rfl⟩
  | geoError m =>
    unfold handleGetLocation
    split
    · next l heq =>
      rw [hnm l heq]
      exact ⟨_, rfl⟩
    · exact ⟨_, rfl⟩
  | position lat lon alt => simp [geoFails] at hfail

theorem location_clearPolling (s : OrchState) :
    (clearPolling s).location = s.location := by
  unfold clearPolling
  split <;> rfl

/-- C8: a previously manually-set location resolves immediately (the state and
result do not depend on the device-geolocation outcome at all); otherwise the
device position is used; a geolocation failure on a run without a manual
location ends the whole run in terminal Failed (loading off, error message
shown, no fetch affordance, no timer); and whatever the geocode, weather and
enrichment outcomes are, a run whose geolocation succeeds always reaches job
submission — location acquisition is the only acquisition stage whose failure
aborts the pipeline. -/
theorem c8_location_policy :
    (∀ s l geo, s.location = some l → l.isManuallySet = true →
      handleGetLocation s geo = (s, Except.ok l)) ∧
    (∀ s lat lon alt, locNotManual s →
      (handleGetLocation s (.position lat lon alt)).2 =
        Except.ok (deviceLoc lat lon alt)) ∧
    (∀ s env, locNotManual s → geoFails env.geo = true →
      (handleGenerateClick s env).isLoading = false ∧
      (handleGenerateClick s env).error = some (geoFailMsg env.geo) ∧
      (handleGenerateClick s env).status = geoFailMsg env.geo ∧
      (handleGenerateClick s env).showFetchButton = false ∧
      (handleGenerateClick s env).pollingIntervalId = none) ∧
    (∀ s env lat lon alt, env.geo = GeoOutcome.position lat lon alt →
      ∃ s5, handleGenerateClick s env = handleStartGeneration s5 env.submit) := by
  refine ⟨?_, ?_, ?_, ?_⟩
  · intro s l geo hsl hm
    simp [handleGetLocation, hsl, hm]
  · intro s lat lon alt hnm
    unfold handleGetLocation
    split
    · next l heq =>
      rw [hnm l heq]
      rfl
    · rfl
  · intro s env hnm hfail
    have hnm2 : locNotManual (clearPolling { s with isLoading := true, error := none, prompt := some "", imageUrl := none, predictionId := none, showFetchButton := false }) := by
      intro l hl
      rw [location_clearPolling] at hl
      exact hnm l hl
    obtain ⟨t', hgl⟩ := handleGetLocation_fails _ env.geo hnm2 hfail
    simp only [handleGenerateClick, hgl]
    cases hpi : t'.pollingIntervalId <;>
      simp [clearPolling, hpi, updateStatus]
  · intro s env lat lon alt hg
    simp only [handleGenerateClick, hg]
    obtain ⟨t2, loc2, hgl⟩ := handleGetLocation_position_ok (clearPolling { s with isLoading := true, error := none, prompt := some "", imageUrl := none, predictionId := none, showFetchButton := false }) lat lon alt
    simp only [hgl]
    rcases hn : handleGetLocationName t2 loc2 env.geocode with ⟨t3, locN⟩
    simp only [hn]
    rcases hw : handleGetWeather t3 locN env.weather with ⟨t4, w4⟩
    simp only [hw]
    rcases hc : createAndSetPrompt t4 locN w4 env.enhance with ⟨t5, p5⟩
    simp only [hc]
    exact ⟨t5, rfl⟩

/-- Witness for C8: the manual location short-circuits device geolocation, the
device position is used otherwise, an unsupported-geolocation run ends Failed
with everything re-enabled, and a located run reaches submission. -/
theorem c8_location_policy_witness :
    handleGetLocation manualState .unsupported = (manualState, Except.ok manualLoc) ∧
    (handleGetLocation initialState (.position 59 10 none)).2 =
      Except.ok (deviceLoc 59 10 none) ∧
    (handleGenerateClick initialState envGeoFail).isLoading = false ∧
    (handleGenerateClick initialState envGeoFail).error =
      some "Geolocation is not supported by your browser." ∧
    (handleGenerateClick initialState envGeoFail).showFetchButton = false ∧
    (handleGenerateClick initialState envGeoFail).pollingIntervalId = none ∧
    (∃ s5, handleGenerateClick initialState envOkSubmit =
      handleStartGeneration s5 envOkSubmit.submit) := by
  have h := c8_location_policy
  have hnm : locNotManual initialState := by
    intro l hl
    cases hl
  refine ⟨h.1 manualState manualLoc .unsupported rfl rfl,
          h.2.1 initialState 59 10 none hnm,
          (h.2.2.1 initialState envGeoFail hnm rfl).1,
          (h.2.2.1 initialState envGeoFail hnm rfl).2.1,
          (h.2.2.1 initialState envGeoFail hnm rfl).2.2.2.1,
          (h.2.2.1 initialState envGeoFail hnm rfl).2.2.2.2,
          h.2.2.2 initialState envOkSubmit 59 10 none rfl⟩

theorem isEmpty_false_of_ne (s : String) (h : s ≠ "") : s.isEmpty = false := by
  rw [Bool.eq_false_iff]
  intro hab
  exact h ((String.isEmpty_iff s).mp hab)

/-- C9: `getLocationFromCoordinates` is total with a non-empty `best_name`: for
every upstream outcome the promise resolves (never rejects) with a
`LocationInfo` whose `best_name` is non-empty (falling back to
"Unknown location"), so the 500 branch of the geocode `GET` is unreachable. -/
theorem c9_geocode_total_nonempty :
    (∀ o, ∃ info, getLocationFromCoordinates o = Except.ok info ∧
      info.best_name.isEmpty = false) ∧
    (∀ latQ lonQ o, isServerError (geocodeGET latQ lonQ o) = false) := by
  have hmain : ∀ o, ∃ info, getLocationFromCoordinates o = Except.ok info ∧
      info.best_name.isEmpty = false := by
    intro o
    cases o with
    | netError msg =>
      exact ⟨defaultLocationInfo, rfl, rfl⟩
    | response st body =>
      by_cases hok : respOk st = true
      · cases body with
        | error msg =>
          refine ⟨defaultLocationInfo, ?_, rfl⟩
          simp [getLocationFromCoordinates, getLocationFromCoordinatesTry, hok]
        | ok data =>
          refine ⟨locationInfoOf data, ?_, ?_⟩
          · simp [getLocationFromCoordinates, getLocationFromCoordinatesTry, hok]
          · show (locationInfoOf data).best_name.isEmpty = false
            refine isEmpty_false_of_ne _ ?_
            show jsOr _ (jsOr _ (jsOr _ (jsOr _ (jsOr _ (jsOr _ "Unknown location"))))) ≠ ""
            refine jsOr_ne_empty _ _ ?_
            refine jsOr_ne_empty _ _ ?_
            refine jsOr_ne_empty _ _ ?_
            refine jsOr_ne_empty _ _ ?_
            refine jsOr_ne_empty _ _ ?_
            exact jsOr_ne_empty _ _ (by decide)
      · refine ⟨defaultLocationInfo, ?_, rfl⟩
        rw [Bool.not_eq_true] at hok
        simp [getLocationFromCoordinates, getLocationFromCoordinatesTry, hok]
  refine ⟨hmain, ?_⟩
  intro latQ lonQ o
  unfold geocodeGET
  split
  · rfl
  · obtain ⟨info, hinfo, _⟩ := hmain o
    rw [hinfo]
    rfl

/-- C10: while a run is loading, a map-drag change is ignored entirely (the
state is returned unchanged); when a change to different coordinates is applied
over a stored prior location, the new location keeps the prior altitude,
carries the new coordinates, sets the manual-provenance flag, and clears the
resolved location name. -/
theorem c10_map_change_frame :
    (∀ s lat lng, s.isLoading = true → handleMapLocationChange s lat lng = s) ∧
    (∀ s prev lat lng, s.isLoading = false → s.location = some prev →
      ¬(prev.latitude = lat ∧ prev.longitude = lng) →
      (handleMapLocationChange s lat lng).location =
        some { latitude := lat, longitude := lng, altitude := prev.altitude,
               locationName := none, isManuallySet := true }) := by
  constructor
  · intro s lat lng h
    simp [handleMapLocationChange, h]
  · intro s prev lat lng hload hloc hne
    simp [handleMapLocationChange, hload, hloc, hne, updateStatus]

/-- Witness for C10: a drag during the mid-poll (loading) state is a no-op, and
a drag of the stored manual location to (7, 8) keeps its altitude, clears its
name and stays manually set. -/
theorem c10_map_change_frame_witness :
    handleMapLocationChange pollingState 5 6 = pollingState ∧
    (handleMapLocationChange manualState 7 8).location =
      some { latitude := 7, longitude := 8, altitude := some 100,
             locationName := none, isManuallySet := true } := by
  have h := c10_map_change_frame
  exact ⟨h.1 pollingState 5 6 rfl,
         h.2 manualState manualLoc 7 8 rfl rfl (by decide)⟩
